import Mathlib

/-!
Verification of the Maths-V2 quiz application core: a shallow embedding of the client-side session & quiz controller of the
Maths-V2 educational quiz application, together with proofs about it.

The embedding covers:
* the question generator (`src/services/quizService.ts`),
* the progress normalizer inside `fetchAllProgressData`
  (`src/context/AppContext.tsx`),
* the quiz-screen state machine (`QuizScreen`: `nextQuestion`,
  `handleAnswerSubmit`),
* the controller operations (`login`, `logout`, `signUp`, `addUser`,
  `updateUser`, `deleteUser`, `startQuiz`, `finishQuiz`) and the
  auth-state-change handler.

Remote calls are asynchronous and fallible in the source; here each
operation takes the outcome of every remote call it performs as an explicit
parameter, returns the updated controller state, the list of requests it
issued (`DbEffect`), and its TypeScript return value.  JavaScript numbers
appearing in time and score arithmetic are modelled as rationals;
`Math.random()` draws are modelled as rationals `u` with `0 ≤ u < 1`.
-/

/-! ## Data model (`types.ts`) -/

/-- TypeScript union `Role` of the four roles: admin, teacher, student, parent. -/
inductive Role
  | admin
  | teacher
  | student
  | parent
deriving DecidableEq, Repr

/-- The `User` profile record (email merged in from the auth session). -/
structure User where
  id : String
  name : String
  email : String
  role : Role
  childId : Option String
deriving DecidableEq, Repr

/-- TypeScript union `Operation`: addition, subtraction, multiplication. -/
inductive Operation
  | addition
  | subtraction
  | multiplication
deriving DecidableEq, Repr

/-- Settings of one quiz session (`QuizSettings`): operation, difficulty
stage, per-question timer in seconds. -/
structure QuizSettings where
  operation : Operation
  stage : ℕ
  timer : ℚ
deriving DecidableEq, Repr

/-- The `Question` value: question text and the correct numerical answer. -/
structure Question where
  text : String
  answer : ℤ
deriving DecidableEq, Repr

/-- One `QuizResult` per answered or timed-out question.  `userAnswer` is
`none` for the JavaScript `null` (empty submission); a non-numeric
`parseInt` result (`NaN`), which also compares unequal to every answer, is
modelled as `none` as well. -/
structure QuizResult where
  question : Question
  userAnswer : Option ℤ
  isCorrect : Bool
  timeTaken : ℚ
deriving DecidableEq, Repr

/-- The `QuizSummary` value handed to `finishQuiz` at session end. -/
structure QuizSummary where
  settings : QuizSettings
  results : List QuizResult
  score : ℚ
  totalTime : ℚ
deriving DecidableEq, Repr

/-- TypeScript union `View`: login, signUp, dashboard, selectQuiz, quiz,
results. -/
inductive View
  | login
  | signUp
  | dashboard
  | selectQuiz
  | quiz
  | results
deriving DecidableEq, Repr

/-! ## Question generator (`quizService.ts`) -/

/-- JavaScript `getRandomInt(min, max)`, that is
`Math.floor(Math.random() * (max - min + 1)) + min`, with the `Math.random()` draw `u ∈ [0,1)` passed explicitly. -/
def getRandomInt (lo hi : ℤ) (u : ℚ) : ℤ :=
  ⌊u * ((hi : ℚ) - (lo : ℚ) + 1)⌋ + lo

/-- Function `generateQuestion(operation, stage)` from `quizService.ts`, with the two
`Math.random()` draws `u1`, `u2` passed explicitly.  The TypeScript
`default` branch is unreachable for a well-typed `Operation`, so the match
is exhaustive here. -/
def generateQuestion (operation : Operation) (stage : ℕ) (u1 u2 : ℚ) :
    Question :=
  match operation with
  | Operation.addition =>
    if stage = 1 then
      let num1 := getRandomInt 0 5 u1
      let num2 := getRandomInt 0 5 u2
      { text := toString num1 ++ " + " ++ toString num2 ++ " = ?",
        answer := num1 + num2 }
    else if stage = 2 then
      let num1 := getRandomInt 0 10 u1
      let num2 := getRandomInt 0 10 u2
      { text := toString num1 ++ " + " ++ toString num2 ++ " = ?",
        answer := num1 + num2 }
    else
      let num1 := getRandomInt 0 20 u1
      let num2 := getRandomInt 0 20 u2
      { text := toString num1 ++ " + " ++ toString num2 ++ " = ?",
        answer := num1 + num2 }
  | Operation.subtraction =>
    if stage = 1 then
      let num1 := getRandomInt 1 10 u1
      let num2 := getRandomInt 0 num1 u2
      { text := toString num1 ++ " - " ++ toString num2 ++ " = ?",
        answer := num1 - num2 }
    else
      let num1 := getRandomInt 1 20 u1
      let num2 := getRandomInt 0 num1 u2
      { text := toString num1 ++ " - " ++ toString num2 ++ " = ?",
        answer := num1 - num2 }
  | Operation.multiplication =>
    if stage = 1 then
      let num1 := getRandomInt 1 5 u1
      let num2 := getRandomInt 1 5 u2
      { text := toString num1 ++ " x " ++ toString num2 ++ " = ?",
        answer := num1 * num2 }
    else if stage = 2 then
      let num1 := getRandomInt 6 10 u1
      let num2 := getRandomInt 1 10 u2
      { text := toString num1 ++ " x " ++ toString num2 ++ " = ?",
        answer := num1 * num2 }
    else
      let num1 := getRandomInt 1 10 u1
      let num2 := getRandomInt 1 10 u2
      { text := toString num1 ++ " x " ++ toString num2 ++ " = ?",
        answer := num1 * num2 }

/-- Per-stage operand bounds of spec §4.1, written from the specification
text so that `generateQuestion` can be compared against it:
`a` and `b` are the two operands as they appear in the question text. -/
def specOperandBounds (operation : Operation) (stage : ℕ) (a b : ℤ) :
    Prop :=
  match operation with
  | Operation.addition =>
    if stage = 1 then 0 ≤ a ∧ a ≤ 5 ∧ 0 ≤ b ∧ b ≤ 5
    else if stage = 2 then 0 ≤ a ∧ a ≤ 10 ∧ 0 ≤ b ∧ b ≤ 10
    else 0 ≤ a ∧ a ≤ 20 ∧ 0 ≤ b ∧ b ≤ 20
  | Operation.subtraction =>
    if stage = 1 then 1 ≤ a ∧ a ≤ 10 ∧ 0 ≤ b ∧ b ≤ a
    else 1 ≤ a ∧ a ≤ 20 ∧ 0 ≤ b ∧ b ≤ a
  | Operation.multiplication =>
    if stage = 1 then 1 ≤ a ∧ a ≤ 5 ∧ 1 ≤ b ∧ b ≤ 5
    else if stage = 2 then 6 ≤ a ∧ a ≤ 10 ∧ 1 ≤ b ∧ b ≤ 10
    else 1 ≤ a ∧ a ≤ 10 ∧ 1 ≤ b ∧ b ≤ 10

/-- The arithmetic each operation applies to its operands. -/
def applyOperation (operation : Operation) (a b : ℤ) : ℤ :=
  match operation with
  | Operation.addition => a + b
  | Operation.subtraction => a - b
  | Operation.multiplication => a * b

/-- Range lemma for `getRandomInt`: for a draw `u ∈ [0,1)` and `lo ≤ hi`,
the result lies in `[lo, hi]`. -/
theorem getRandomInt_mem (lo hi : ℤ) (u : ℚ) (h0 : 0 ≤ u) (h1 : u < 1)
    (hle : lo ≤ hi) : lo ≤ getRandomInt lo hi u ∧ getRandomInt lo hi u ≤ hi := by
  unfold getRandomInt
  have hn : (0 : ℚ) < (hi : ℚ) - (lo : ℚ) + 1 := by
    have : (lo : ℚ) ≤ (hi : ℚ) := by exact_mod_cast hle
    linarith
  have hnonneg : (0 : ℚ) ≤ u * ((hi : ℚ) - (lo : ℚ) + 1) :=
    mul_nonneg h0 (le_of_lt hn)
  have hlt : u * ((hi : ℚ) - (lo : ℚ) + 1) < (hi : ℚ) - (lo : ℚ) + 1 :=
    mul_lt_of_lt_one_left hn h1
  have hfl0 : (0 : ℤ) ≤ ⌊u * ((hi : ℚ) - (lo : ℚ) + 1)⌋ :=
    Int.floor_nonneg.mpr hnonneg
  have hflt : ⌊u * ((hi : ℚ) - (lo : ℚ) + 1)⌋ < hi - lo + 1 := by
    rw [Int.floor_lt]
    push_cast
    exact hlt
  constructor
  · omega
  · omega

/-- Claim C2. For every supported operation and every stage ≥ 1, and any
`Math.random()` draws `u1, u2 ∈ [0,1)`, `generateQuestion` returns a
question whose two operands satisfy the per-stage inclusive bounds of spec
§4.1, whose answer is the operation applied to those operands, and whose
answer is never negative (in particular the subtraction answer is
non-negative).  Purity and totality hold by construction: the embedding is
a total Lean function of its explicit inputs. -/
theorem generateQuestion_within_spec_bounds (operation : Operation)
    (stage : ℕ) (u1 u2 : ℚ) (h10 : 0 ≤ u1) (h11 : u1 < 1) (h20 : 0 ≤ u2)
    (h21 : u2 < 1) (hs : 1 ≤ stage) :
    ∃ a b : ℤ, specOperandBounds operation stage a b ∧
      (generateQuestion operation stage u1 u2).answer =
        applyOperation operation a b ∧
      0 ≤ (generateQuestion operation stage u1 u2).answer := by
  cases operation with
  | addition =>
    by_cases hst1 : stage = 1
    · obtain ⟨hA1, hA2⟩ := getRandomInt_mem 0 5 u1 h10 h11 (by norm_num)
      obtain ⟨hB1, hB2⟩ := getRandomInt_mem 0 5 u2 h20 h21 (by norm_num)
      refine ⟨getRandomInt 0 5 u1, getRandomInt 0 5 u2, ?_, ?_, ?_⟩
      · simp [specOperandBounds, hst1]
        exact ⟨hA1, hA2, hB1, hB2⟩
      · simp [generateQuestion, applyOperation, hst1]
      · simp [generateQuestion, hst1]
        omega
    · by_cases hst2 : stage = 2
      · obtain ⟨hA1, hA2⟩ := getRandomInt_mem 0 10 u1 h10 h11 (by norm_num)
        obtain ⟨hB1, hB2⟩ := getRandomInt_mem 0 10 u2 h20 h21 (by norm_num)
        refine ⟨getRandomInt 0 10 u1, getRandomInt 0 10 u2, ?_, ?_, ?_⟩
        · simp [specOperandBounds, hst1, hst2]
          exact ⟨hA1, hA2, hB1, hB2⟩
        · simp [generateQuestion, applyOperation, hst1, hst2]
        · simp [generateQuestion, hst1, hst2]
          omega
      · obtain ⟨hA1, hA2⟩ := getRandomInt_mem 0 20 u1 h10 h11 (by norm_num)
        obtain ⟨hB1, hB2⟩ := getRandomInt_mem 0 20 u2 h20 h21 (by norm_num)
        refine ⟨getRandomInt 0 20 u1, getRandomInt 0 20 u2, ?_, ?_, ?_⟩
        · simp [specOperandBounds, hst1, hst2]
          exact ⟨hA1, hA2, hB1, hB2⟩
        · simp [generateQuestion, applyOperation, hst1, hst2]
        · simp [generateQuestion, hst1, hst2]
          omega
  | subtraction =>
    by_cases hst1 : stage = 1
    · obtain ⟨hA1, hA2⟩ := getRandomInt_mem 1 10 u1 h10 h11 (by norm_num)
      obtain ⟨hB1, hB2⟩ :=
        getRandomInt_mem 0 (getRandomInt 1 10 u1) u2 h20 h21 (by omega)
      refine ⟨getRandomInt 1 10 u1, getRandomInt 0 (getRandomInt 1 10 u1) u2,
        ?_, ?_, ?_⟩
      · simp [specOperandBounds, hst1]
        exact ⟨hA1, hA2, hB1, hB2⟩
      · simp [generateQuestion, applyOperation, hst1]
      · simp [generateQuestion, hst1]
        omega
    · obtain ⟨hA1, hA2⟩ := getRandomInt_mem 1 20 u1 h10 h11 (by norm_num)
      obtain ⟨hB1, hB2⟩ :=
        getRandomInt_mem 0 (getRandomInt 1 20 u1) u2 h20 h21 (by omega)
      refine ⟨getRandomInt 1 20 u1, getRandomInt 0 (getRandomInt 1 20 u1) u2,
        ?_, ?_, ?_⟩
      · simp [specOperandBounds, hst1]
        exact ⟨hA1, hA2, hB1, hB2⟩
      · simp [generateQuestion, applyOperation, hst1]
      · simp [generateQuestion, hst1]
        omega
  | multiplication =>
    by_cases hst1 : stage = 1
    · obtain ⟨hA1, hA2⟩ := getRandomInt_mem 1 5 u1 h10 h11 (by norm_num)
      obtain ⟨hB1, hB2⟩ := getRandomInt_mem 1 5 u2 h20 h21 (by norm_num)
      refine ⟨getRandomInt 1 5 u1, getRandomInt 1 5 u2, ?_, ?_, ?_⟩
      · simp [specOperandBounds, hst1]
        exact ⟨hA1, hA2, hB1, hB2⟩
      · simp [generateQuestion, applyOperation, hst1]
      · simp [generateQuestion, hst1]
        exact mul_nonneg (by omega) (by omega)
    · by_cases hst2 : stage = 2
      · obtain ⟨hA1, hA2⟩ := getRandomInt_mem 6 10 u1 h10 h11 (by norm_num)
        obtain ⟨hB1, hB2⟩ := getRandomInt_mem 1 10 u2 h20 h21 (by norm_num)
        refine ⟨getRandomInt 6 10 u1, getRandomInt 1 10 u2, ?_, ?_, ?_⟩
        · simp [specOperandBounds, hst1, hst2]
          exact ⟨hA1, hA2, hB1, hB2⟩
        · simp [generateQuestion, applyOperation, hst1, hst2]
        · simp [generateQuestion, hst1, hst2]
          exact mul_nonneg (by omega) (by omega)
      · obtain ⟨hA1, hA2⟩ := getRandomInt_mem 1 10 u1 h10 h11 (by norm_num)
        obtain ⟨hB1, hB2⟩ := getRandomInt_mem 1 10 u2 h20 h21 (by norm_num)
        refine ⟨getRandomInt 1 10 u1, getRandomInt 1 10 u2, ?_, ?_, ?_⟩
        · simp [specOperandBounds, hst1, hst2]
          exact ⟨hA1, hA2, hB1, hB2⟩
        · simp [generateQuestion, applyOperation, hst1, hst2]
        · simp [generateQuestion, hst1, hst2]
          exact mul_nonneg (by omega) (by omega)

/-- Witness for `generateQuestion_within_spec_bounds` at
`operation = addition`, `stage = 1`, `u1 = u2 = 0`. -/
theorem generateQuestion_within_spec_bounds_witness :
    (0 : ℚ) ≤ 0 ∧ (0 : ℚ) < 1 ∧ 1 ≤ 1 ∧
    ∃ a b : ℤ, specOperandBounds Operation.addition 1 a b ∧
      (generateQuestion Operation.addition 1 0 0).answer =
        applyOperation Operation.addition a b ∧
      0 ≤ (generateQuestion Operation.addition 1 0 0).answer :=
  ⟨by norm_num, by norm_num, le_refl 1,
    generateQuestion_within_spec_bounds Operation.addition 1 0 0
      (by norm_num) (by norm_num) (by norm_num) (by norm_num) (le_refl 1)⟩

/-! ## Progress normalizer (`fetchAllProgressData` in `AppContext.tsx`)

The loop body of `fetchAllProgressData` transforms the flat list of rows of
the remote `progress` table into the nested `ProgressData` object.
JavaScript string-keyed objects are modelled as association lists, with
property assignment `obj[k] = v` replacing an existing entry in place and
appending otherwise.  The transformation itself is the pure function
`transformProgress`; it builds a fresh structure and never mutates the
record list it is given (immutability is inherent in the embedding). -/

/-- A flat row of the remote `progress` table. -/
structure ProgressRecord where
  user_id : String
  operation : String
  stage : ℕ
  score : ℚ
deriving DecidableEq, Repr

/-- JavaScript property assignment `obj[k] = v` on a string-keyed object:
replace in place when the key exists, append otherwise. -/
def setKey {α : Type} : List (String × α) → String → α → List (String × α)
  | [], k, v => [(k, v)]
  | (k1, v1) :: rest, k, v =>
    if k1 = k then (k, v) :: rest else (k1, v1) :: setKey rest k v

/-- JavaScript property read `obj[k]` (`none` for an absent key). -/
def getKey {α : Type} : List (String × α) → String → Option α
  | [], _ => none
  | (k1, v1) :: rest, k => if k1 = k then some v1 else getKey rest k

/-- Map `Progress`: stage key (the text stage followed by the stage number)
to score. -/
abbrev Progress := List (String × ℚ)

/-- Map `StudentProgress`: operation name to `Progress`. -/
abbrev StudentProgress := List (String × Progress)

/-- Map `ProgressData`: student id to `StudentProgress`. -/
abbrev ProgressData := List (String × StudentProgress)

/-- The template-literal key stored for a stage: `` `stage${stage}` ``. -/
def stageKey (stage : ℕ) : String := "stage" ++ toString stage

/-- One iteration of the `for (const record of data)` loop in
`fetchAllProgressData`: ensure the student entry and the operation entry
exist (defaulting to empty objects), then assign
`studentProgress[operation]["stage" + stage] = score`. -/
def applyRecord (pd : ProgressData) (r : ProgressRecord) : ProgressData :=
  let studentProgress := (getKey pd r.user_id).getD []
  let operationProgress := (getKey studentProgress r.operation).getD []
  let operationProgress2 := setKey operationProgress (stageKey r.stage) r.score
  let studentProgress2 := setKey studentProgress r.operation operationProgress2
  setKey pd r.user_id studentProgress2

/-- The whole transformation loop of `fetchAllProgressData`: start from the
empty object and fold the loop body over the records in order. -/
def transformProgress (records : List ProgressRecord) : ProgressData :=
  records.foldl applyRecord []

/-- Nested lookup `pd[sid]?.[op]?.[key]` into a `ProgressData` value. -/
def lookupScore (pd : ProgressData) (sid op key : String) : Option ℚ :=
  match getKey pd sid with
  | none => none
  | some sp =>
    match getKey sp op with
    | none => none
    | some p => getKey p key

/-- Whether a record addresses the (student, operation, stage-key)
triple. -/
def recMatches (r : ProgressRecord) (sid op key : String) : Bool :=
  decide (r.user_id = sid ∧ r.operation = op ∧ stageKey r.stage = key)

theorem getKey_setKey_same {α : Type} (l : List (String × α)) (k : String)
    (v : α) : getKey (setKey l k v) k = some v := by
  induction l with
  | nil => simp [setKey, getKey]
  | cons hd tl ih =>
    obtain ⟨k1, v1⟩ := hd
    by_cases h : k1 = k
    · simp [setKey, getKey, h]
    · simp [setKey, getKey, h, ih]

theorem getKey_setKey_other {α : Type} (l : List (String × α))
    (k k2 : String) (v : α) (h : k2 ≠ k) :
    getKey (setKey l k v) k2 = getKey l k2 := by
  induction l with
  | nil => simp [setKey, getKey, Ne.symm h]
  | cons hd tl ih =>
    obtain ⟨k1, v1⟩ := hd
    by_cases h1 : k1 = k
    · subst h1
      simp [setKey, getKey, Ne.symm h]
    · simp [setKey, getKey, h1, ih]

theorem lookupScore_applyRecord_same (pd : ProgressData)
    (r : ProgressRecord) :
    lookupScore (applyRecord pd r) r.user_id r.operation (stageKey r.stage) =
      some r.score := by
  simp [lookupScore, applyRecord, getKey_setKey_same]

theorem lookupScore_applyRecord_other (pd : ProgressData)
    (r : ProgressRecord) (sid op key : String)
    (h : ¬(r.user_id = sid ∧ r.operation = op ∧ stageKey r.stage = key)) :
    lookupScore (applyRecord pd r) sid op key = lookupScore pd sid op key := by
  by_cases hs : r.user_id = sid
  · subst hs
    by_cases ho : r.operation = op
    · subst ho
      have hk : stageKey r.stage ≠ key := by
        intro hk
        exact h ⟨rfl, rfl, hk⟩
      cases hpd : getKey pd r.user_id with
      | none =>
        simp [lookupScore, applyRecord, hpd, getKey_setKey_same,
          getKey_setKey_other, hk, getKey]
      | some sp =>
        cases hsp : getKey sp r.operation with
        | none =>
          simp [lookupScore, applyRecord, hpd, hsp, getKey_setKey_same,
            getKey_setKey_other, hk, getKey]
        | some p =>
          simp [lookupScore, applyRecord, hpd, hsp, getKey_setKey_same,
            getKey_setKey_other p (stageKey r.stage) key r.score
              (Ne.symm hk)]
    · have ho2 : op ≠ r.operation := fun hh => ho hh.symm
      cases hpd : getKey pd r.user_id with
      | none =>
        simp [lookupScore, applyRecord, hpd, getKey_setKey_same,
          getKey_setKey_other, ho, ho2, getKey]
      | some sp =>
        simp [lookupScore, applyRecord, hpd, getKey_setKey_same,
          getKey_setKey_other, ho, ho2]
  · have hs2 : sid ≠ r.user_id := fun hh => hs hh.symm
    simp [lookupScore, applyRecord, getKey_setKey_other, hs2]

theorem find?_append_none {α : Type} (p : α → Bool) (l1 l2 : List α)
    (h : l1.find? p = none) : (l1 ++ l2).find? p = l2.find? p := by
  induction l1 with
  | nil => simp
  | cons hd tl ih =>
    by_cases hp : p hd
    · rw [List.find?_cons_of_pos _ hp] at h
      exact absurd h (by simp)
    · rw [List.find?_cons_of_neg _ hp] at h
      rw [List.cons_append, List.find?_cons_of_neg _ hp]
      exact ih h

theorem find?_append_some {α : Type} (p : α → Bool) (l1 l2 : List α)
    (r : α) (h : l1.find? p = some r) : (l1 ++ l2).find? p = some r := by
  induction l1 with
  | nil => simp at h
  | cons hd tl ih =>
    by_cases hp : p hd
    · rw [List.find?_cons_of_pos _ hp] at h
      rw [List.cons_append, List.find?_cons_of_pos _ hp]
      exact h
    · rw [List.find?_cons_of_neg _ hp] at h
      rw [List.cons_append, List.find?_cons_of_neg _ hp]
      exact ih h

/-- The fold underlying `transformProgress` is last-write-wins: a lookup
returns the score of the last matching record, falling back to the initial
accumulator when none matches. -/
theorem lookupScore_foldl (records : List ProgressRecord) (pd : ProgressData)
    (sid op key : String) :
    lookupScore (records.foldl applyRecord pd) sid op key =
      (match records.reverse.find? (fun r => recMatches r sid op key) with
        | some r => some r.score
        | none => lookupScore pd sid op key) := by
  induction records generalizing pd with
  | nil => simp
  | cons r rs ih =>
    simp only [List.foldl_cons, List.reverse_cons]
    rw [ih]
    cases h : rs.reverse.find? (fun r => recMatches r sid op key) with
    | some r2 =>
      rw [find?_append_some _ _ _ _ h]
    | none =>
      rw [find?_append_none _ _ _ h]
      by_cases hm : recMatches r sid op key
      · have hprop : r.user_id = sid ∧ r.operation = op ∧
            stageKey r.stage = key := by
          simpa [recMatches] using hm
        obtain ⟨h1, h2, h3⟩ := hprop
        subst h1; subst h2; subst h3
        simp [List.find?_cons, hm, lookupScore_applyRecord_same]
      · have hprop : ¬(r.user_id = sid ∧ r.operation = op ∧
            stageKey r.stage = key) := by
          simpa [recMatches] using hm
        simp [List.find?_cons, hm, lookupScore_applyRecord_other pd r sid op key hprop]

/-- Claim C3. The progress normalizer (the transformation loop of
`fetchAllProgressData`): the empty record list yields the empty index; a
lookup returns exactly the score of the last record, in the iteration order of
the input, addressing that (student, operation, stage) triple
(last-write-wins); and an entry exists if and only if some input record
addresses that triple (no placeholder keys).  The input list is not
mutated: `transformProgress` is a pure function of an immutable list. -/
theorem fetchAllProgressData_normalizer_spec :
    transformProgress [] = [] ∧
    (∀ (records : List ProgressRecord) (sid op key : String),
      lookupScore (transformProgress records) sid op key =
        (records.reverse.find? (fun r => recMatches r sid op key)).map
          ProgressRecord.score) ∧
    (∀ (records : List ProgressRecord) (sid op key : String),
      (∃ q, lookupScore (transformProgress records) sid op key = some q) ↔
        ∃ r ∈ records, recMatches r sid op key = true) := by
  refine ⟨rfl, ?_, ?_⟩
  · intro records sid op key
    rw [transformProgress, lookupScore_foldl]
    cases h : records.reverse.find? (fun r => recMatches r sid op key) with
    | some r => simp
    | none => simp [lookupScore, getKey]
  · intro records sid op key
    rw [transformProgress, lookupScore_foldl]
    cases h : records.reverse.find? (fun r => recMatches r sid op key) with
    | some r =>
      have hmem : r ∈ records :=
        List.mem_reverse.mp (List.mem_of_find?_eq_some h)
      have hp := List.find?_some h
      refine iff_of_true ⟨r.score, rfl⟩ ⟨r, hmem, ?_⟩
      simpa using hp
    | none =>
      have hall := List.find?_eq_none.mp h
      refine iff_of_false ?_ ?_
      · rintro ⟨q, hq⟩
        simp [lookupScore, getKey] at hq
      · rintro ⟨r, hr, hp⟩
        exact absurd hp (hall r (List.mem_reverse.mpr hr))

/-! ## Quiz session state machine (`QuizScreen`)

State and transitions of the quiz-taking screen.  Wall-clock readings of
`Date.now()` (milliseconds) and the `Math.random()` draws made by
`generateQuestion` are passed as explicit parameters.  The `isAnswered`
flag makes the submit handler fire at most once per question, so a timeout
after a submission (or vice versa) cannot double-record a result. -/

/-- Constant `TOTAL_QUESTIONS = 10`. -/
def TOTAL_QUESTIONS : ℕ := 10

/-- JavaScript `parseInt(s, 10)`: skip leading whitespace, optional sign,
then a maximal run of decimal digits; no digits means `NaN`, modelled as
`none`. -/
def parseIntJS (s : String) : Option ℤ :=
  let cs := s.data.dropWhile Char.isWhitespace
  match cs with
  | '-' :: rest =>
    let ds := rest.takeWhile Char.isDigit
    if ds.isEmpty then none
    else some (-(ds.foldl (fun n c => n * 10 + ((c.toNat : ℤ) - 48)) 0))
  | '+' :: rest =>
    let ds := rest.takeWhile Char.isDigit
    if ds.isEmpty then none
    else some (ds.foldl (fun n c => n * 10 + ((c.toNat : ℤ) - 48)) 0)
  | rest =>
    let ds := rest.takeWhile Char.isDigit
    if ds.isEmpty then none
    else some (ds.foldl (fun n c => n * 10 + ((c.toNat : ℤ) - 48)) 0)

/-- The `useState` cells of `QuizScreen`.  `startTime` is the `Date.now()`
reading (milliseconds) taken when the current question was presented. -/
structure QuizScreenState where
  question : Option Question
  questionIndex : ℕ
  userAnswer : String
  results : List QuizResult
  isAnswered : Bool
  feedback : String
  startTime : ℚ
deriving DecidableEq, Repr

/-- The initial `useState` values of `QuizScreen` (mounted at time `t0`). -/
def initialQuizScreenState (t0 : ℚ) : QuizScreenState :=
  { question := none, questionIndex := 0, userAnswer := "", results := [],
    isAnswered := false, feedback := "", startTime := t0 }

/-- Handler `handleAnswerSubmit(answerStr)` evaluated at wall-clock time `now`
(milliseconds): a no-op when already answered or no question is loaded;
otherwise computes `timeTaken = (Date.now() - startTime) / 1000` (no
clamping), parses the answer (the empty string becomes null), compares it with the
correct answer, sets the feedback text and appends the `QuizResult`. -/
def handleAnswerSubmit (answerStr : String) (now : ℚ)
    (s : QuizScreenState) : QuizScreenState :=
  if s.isAnswered then s
  else
    match s.question with
    | none => s
    | some question =>
      let timeTaken : ℚ := (now - s.startTime) / 1000
      let answerNum : Option ℤ :=
        if answerStr = "" then none else parseIntJS answerStr
      let isCorrect : Bool := answerNum == some question.answer
      { s with
        isAnswered := true,
        feedback :=
          if isCorrect then "Correct!"
          else "Oops! The correct answer was " ++ toString question.answer
            ++ ".",
        results := s.results ++
          [{ question := question, userAnswer := answerNum,
             isCorrect := isCorrect, timeTaken := timeTaken }] }

/-- The summary built in the finish branch of `nextQuestion` (the argument
of the `finishQuiz(...)` call): `totalTime` is
`results.reduce((sum, r) => sum + r.timeTaken, 0)` and `score` is
`(results.filter(r => r.isCorrect).length / TOTAL_QUESTIONS) * 100`. -/
def mkQuizSummary (settings : QuizSettings) (results : List QuizResult) :
    QuizSummary :=
  { settings := settings,
    results := results,
    score := (((results.filter (fun r => r.isCorrect)).length : ℚ) /
      (TOTAL_QUESTIONS : ℚ)) * 100,
    totalTime := results.foldl (fun sum r => sum + r.timeTaken) 0 }

/-- Transition `nextQuestion()` evaluated at wall-clock time `now`, with the two
`Math.random()` draws `u1`, `u2` for the freshly generated question.
`nextQuestion` is a `useCallback` closure: its plain reads of
`questionIndex` and `results` see the values of the render in which the
invoked instance was created — the state `captured` — while its `setState`
writes apply to the live component state `current` (and
`setQuestionIndex(prev => prev + 1)` is a functional update, reading
`current`).  The two coincide for the mount-effect call, but the instance
scheduled by `handleAnswerSubmit` via `setTimeout` was created in the
render that presented the question, *before* the submit appended its
result (a stale closure).  A no-op without settings; once the captured
`questionIndex >= TOTAL_QUESTIONS` it finishes the quiz, building the
summary passed to `finishQuiz` from the **captured** (pre-submit)
`results`; otherwise it resets the per-question state, generates the next
question, advances the index and restarts the clock. -/
def nextQuestion (quizSettings : Option QuizSettings) (u1 u2 now : ℚ)
    (captured current : QuizScreenState) : QuizScreenState ⊕ QuizSummary :=
  match quizSettings with
  | none => Sum.inl current
  | some settings =>
    if TOTAL_QUESTIONS ≤ captured.questionIndex then
      Sum.inr (mkQuizSummary settings captured.results)
    else
      Sum.inl { current with
        isAnswered := false,
        feedback := "",
        userAnswer := "",
        question := some (generateQuestion settings.operation settings.stage
          u1 u2),
        questionIndex := current.questionIndex + 1,
        startTime := now }

/-- One answered question during a running session: the submission (either
an explicit submit or the timer expiring and submitting the empty string)
at time
`submitTime`, followed 1.5 s later by the scheduled `nextQuestion()` call
at time `nextTime`, with its two `Math.random()` draws. -/
structure AnswerEvent where
  answerStr : String
  submitTime : ℚ
  u1 : ℚ
  u2 : ℚ
  nextTime : ℚ
deriving DecidableEq, Repr

/-- One step of a quiz run; once the session is complete the summary is
final (the component has unmounted).  The `setTimeout`-scheduled
`nextQuestion` instance was created in the render that presented the
question, so its captured state is `s`, the **pre-submit** state, while
the live state it updates is `handleAnswerSubmit e.answerStr e.submitTime
s`, the post-submit state. -/
def stepQuiz (settings : QuizSettings) (acc : QuizScreenState ⊕ QuizSummary)
    (e : AnswerEvent) : QuizScreenState ⊕ QuizSummary :=
  match acc with
  | Sum.inr summary => Sum.inr summary
  | Sum.inl s =>
    nextQuestion (some settings) e.u1 e.u2 e.nextTime s
      (handleAnswerSubmit e.answerStr e.submitTime s)

/-- A full session: mount (the initial `nextQuestion()` effect, with draws
`u01`, `u02` at time `t0`, whose captured and live state coincide)
followed by the list of answered questions. -/
def runQuiz (settings : QuizSettings) (u01 u02 t0 : ℚ)
    (events : List AnswerEvent) : QuizScreenState ⊕ QuizSummary :=
  events.foldl (stepQuiz settings)
    (nextQuestion (some settings) u01 u02 t0 (initialQuizScreenState t0)
      (initialQuizScreenState t0))

/-- Shape of `handleAnswerSubmit` on an unanswered loaded question: exactly
one `QuizResult` is appended, with the unclamped elapsed time, the parsed
answer (empty string mapped to null) and the equality comparison against the correct
answer. -/
theorem handleAnswerSubmit_spec (a : String) (now : ℚ)
    (s : QuizScreenState) (q : Question) (h1 : s.isAnswered = false)
    (hq : s.question = some q) :
    ∃ r : QuizResult,
      r.timeTaken = (now - s.startTime) / 1000 ∧
      r.question = q ∧
      r.userAnswer = (if a = "" then none else parseIntJS a) ∧
      r.isCorrect = (r.userAnswer == some q.answer) ∧
      handleAnswerSubmit a now s =
        { s with
          isAnswered := true,
          feedback :=
            if r.isCorrect then "Correct!"
            else "Oops! The correct answer was " ++ toString q.answer ++ ".",
          results := s.results ++ [r] } := by
  refine ⟨⟨q, if a = "" then none else parseIntJS a,
    (if a = "" then (none : Option ℤ) else parseIntJS a) == some q.answer,
    (now - s.startTime) / 1000⟩, rfl, rfl, rfl, rfl, ?_⟩
  simp [handleAnswerSubmit, h1, hq]

theorem foldl_add_timeTaken (l : List QuizResult) (c : ℚ) :
    l.foldl (fun sum r => sum + r.timeTaken) c =
      c + (l.map QuizResult.timeTaken).sum := by
  induction l generalizing c with
  | nil => simp
  | cons hd tl ih => simp [ih, add_assoc]


/-- Invariant of a running session: while awaiting the answer to question
`questionIndex`, exactly `questionIndex - 1` results have been recorded.
Each continue step appends the freshly answered result to the live state,
but the finish step builds the summary from the **captured** pre-submit
results of its stale closure, so completing the session yields a summary
holding one result per question *except the last*:
`TOTAL_QUESTIONS - 1` of them. -/
theorem runQuiz_invariant (settings : QuizSettings) :
    ∀ (events : List AnswerEvent) (s : QuizScreenState),
      s.isAnswered = false →
      (∃ q, s.question = some q) →
      s.questionIndex = s.results.length + 1 →
      s.questionIndex ≤ TOTAL_QUESTIONS →
      s.results.length + events.length = TOTAL_QUESTIONS →
      ∃ rs : List QuizResult,
        events.foldl (stepQuiz settings) (Sum.inl s) =
          Sum.inr (mkQuizSummary settings (s.results ++ rs)) ∧
        (s.results ++ rs).length = TOTAL_QUESTIONS - 1 := by
  intro events
  induction events with
  | nil =>
    intro s h1 h2 h3 h4 h5
    exfalso
    simp only [List.length_nil, Nat.add_zero] at h5
    omega
  | cons e es ih =>
    rintro s h1 ⟨q, hq⟩ h3 h4 h5
    obtain ⟨r, htt, hrq, hru, hric, heq⟩ :=
      handleAnswerSubmit_spec e.answerStr e.submitTime s q h1 hq
    simp only [List.foldl_cons, stepQuiz, heq]
    simp only [List.length_cons] at h5
    by_cases hfin : TOTAL_QUESTIONS ≤ s.questionIndex
    · have hidx : s.questionIndex = TOTAL_QUESTIONS := le_antisymm h4 hfin
      have hes : es = [] := List.length_eq_zero.mp (by omega)
      subst hes
      refine ⟨[], ?_, ?_⟩
      · simp [nextQuestion, hfin]
      · simp only [List.append_nil]
        omega
    · have hnq : nextQuestion (some settings) e.u1 e.u2 e.nextTime s
          { s with
            isAnswered := true,
            feedback :=
              if r.isCorrect then "Correct!"
              else "Oops! The correct answer was " ++ toString q.answer
                ++ ".",
            results := s.results ++ [r] } =
          Sum.inl { s with
            isAnswered := false,
            feedback := "",
            userAnswer := "",
            question := some (generateQuestion settings.operation
              settings.stage e.u1 e.u2),
            questionIndex := s.questionIndex + 1,
            startTime := e.nextTime,
            results := s.results ++ [r] } := by
        simp [nextQuestion, hfin]
      rw [hnq]
      obtain ⟨rs, hfold, hlen⟩ := ih
        { s with
          isAnswered := false,
          feedback := "",
          userAnswer := "",
          question := some (generateQuestion settings.operation
            settings.stage e.u1 e.u2),
          questionIndex := s.questionIndex + 1,
          startTime := e.nextTime,
          results := s.results ++ [r] }
        rfl ⟨_, rfl⟩
        (by simp only [List.length_append, List.length_singleton]; omega)
        (by simp only; omega)
        (by simp only [List.length_append, List.length_singleton]; omega)
      refine ⟨r :: rs, ?_, ?_⟩
      · rw [hfold]
        simp only [List.append_assoc, List.singleton_append]
      · simp only [List.length_append, List.length_singleton,
          List.length_cons, List.length_nil] at hlen ⊢
        omega

/-- Claim C1 (code behaviour, refuting the claim as stated).  The claim
says a full run in which all 10 questions reach a recorded result hands
`finishQuiz` a summary with `results.length = 10` and
`score = correct/10*100` (100 when all are correct).  The program instead
drops the final result: the `setTimeout`-scheduled `nextQuestion` closure
captured the pre-submit `results`, so the summary passed to `finishQuiz`
holds only the first 9 results, `score` counts correct answers among
those 9 (hence an all-correct run scores 90, not 100), and `totalTime`
sums only those 9 `timeTaken` fields. -/
theorem runQuiz_stale_summary (settings : QuizSettings)
    (u01 u02 t0 : ℚ) (events : List AnswerEvent)
    (hlen : events.length = TOTAL_QUESTIONS) :
    ∃ summary : QuizSummary,
      runQuiz settings u01 u02 t0 events = Sum.inr summary ∧
      summary.results.length = 9 ∧
      summary.score =
        (((summary.results.filter (fun r => r.isCorrect)).length : ℚ) / 10)
          * 100 ∧
      ((∀ r ∈ summary.results, r.isCorrect = true) → summary.score = 90) ∧
      ((∀ r ∈ summary.results, r.isCorrect = false) → summary.score = 0) ∧
      summary.totalTime = (summary.results.map QuizResult.timeTaken).sum := by
  unfold runQuiz
  have h0 : nextQuestion (some settings) u01 u02 t0
      (initialQuizScreenState t0) (initialQuizScreenState t0) =
      Sum.inl ⟨some (generateQuestion settings.operation settings.stage
        u01 u02), 1, "", [], false, "", t0⟩ := by
    simp [nextQuestion, initialQuizScreenState, TOTAL_QUESTIONS]
  rw [h0]
  obtain ⟨rs, hfold, hrslen⟩ := runQuiz_invariant settings events
    ⟨some (generateQuestion settings.operation settings.stage u01 u02),
      1, "", [], false, "", t0⟩
    rfl ⟨_, rfl⟩ rfl (by simp [TOTAL_QUESTIONS]) (by simpa using hlen)
  simp only [List.nil_append] at hfold hrslen
  have h9 : rs.length = 9 := by
    simp only [TOTAL_QUESTIONS] at hrslen
    omega
  refine ⟨mkQuizSummary settings rs, hfold, ?_, ?_, ?_, ?_, ?_⟩
  · simpa [mkQuizSummary] using h9
  · simp [mkQuizSummary, TOTAL_QUESTIONS]
  · intro hall
    have hfil : rs.filter (fun r => r.isCorrect) = rs :=
      List.filter_eq_self.mpr (by intro a ha; simpa using hall a ha)
    simp only [mkQuizSummary, hfil]
    rw [h9]
    norm_num [TOTAL_QUESTIONS]
  · intro hnone
    have hfil : rs.filter (fun r => r.isCorrect) = [] := by
      rw [List.filter_eq_nil_iff]
      intro a ha
      simp [hnone a ha]
    simp [mkQuizSummary, hfil]
  · simp [mkQuizSummary, foldl_add_timeTaken]

/-- Witness for `runQuiz_stale_summary`: a concrete 10-question addition
session with all submissions at `0` (every answer correct and recorded,
yet the summary keeps 9 results and scores 90). -/
theorem runQuiz_stale_summary_witness :
    ∃ summary : QuizSummary,
      runQuiz ⟨Operation.addition, 1, 8⟩ 0 0 0
          (List.replicate 10 ⟨"0", 0, 0, 0, 0⟩) = Sum.inr summary ∧
      summary.results.length = 9 ∧
      summary.score =
        (((summary.results.filter (fun r => r.isCorrect)).length : ℚ) / 10)
          * 100 ∧
      ((∀ r ∈ summary.results, r.isCorrect = true) → summary.score = 90) ∧
      ((∀ r ∈ summary.results, r.isCorrect = false) → summary.score = 0) ∧
      summary.totalTime = (summary.results.map QuizResult.timeTaken).sum :=
  runQuiz_stale_summary ⟨Operation.addition, 1, 8⟩ 0 0 0
    (List.replicate 10 ⟨"0", 0, 0, 0, 0⟩) (by simp [TOTAL_QUESTIONS])

/-- Claim C4, amended. The recorded `timeTaken` of every answered or
timed-out question equals the raw elapsed wall-clock seconds since the
question was presented, `(now - startTime) / 1000`, with **no clamping**
to `settings.timer` (the handler does not even receive the timer value). -/
theorem handleAnswerSubmit_timeTaken_elapsed (a : String) (now : ℚ)
    (s : QuizScreenState) (q : Question) (h1 : s.isAnswered = false)
    (hq : s.question = some q) :
    ∃ r : QuizResult,
      (handleAnswerSubmit a now s).results = s.results ++ [r] ∧
      r.timeTaken = (now - s.startTime) / 1000 := by
  obtain ⟨r, htt, hrq, hru, hric, heq⟩ := handleAnswerSubmit_spec a now s q h1 hq
  exact ⟨r, by rw [heq], htt⟩

/-- Witness for `handleAnswerSubmit_timeTaken_elapsed`: an empty (timed
out) submission at 9000 ms on a question presented at 0 ms. -/
theorem handleAnswerSubmit_timeTaken_elapsed_witness :
    ∃ r : QuizResult,
      (handleAnswerSubmit "" 9000
        ⟨some ⟨"1 + 1 = ?", 2⟩, 1, "", [], false, "", 0⟩).results =
        ([] : List QuizResult) ++ [r] ∧
      r.timeTaken = (9000 - 0) / 1000 :=
  handleAnswerSubmit_timeTaken_elapsed "" 9000
    ⟨some ⟨"1 + 1 = ?", 2⟩, 1, "", [], false, "", 0⟩ ⟨"1 + 1 = ?", 2⟩ rfl rfl

/-- Claim C4, counterexample. An empty submission 9 elapsed seconds after the
question was presented records `timeTaken = 9`, which exceeds the
8-second per-question timer of the session settings: the claimed clamp
`timeTaken ≤ settings.timer` does not hold. -/
theorem handleAnswerSubmit_clamp_counterexample :
    ((handleAnswerSubmit "" 9000
        ⟨some ⟨"1 + 1 = ?", 2⟩, 1, "", [], false, "", 0⟩).results.map
      QuizResult.timeTaken) = [9] ∧
    ¬ ((9 : ℚ) ≤ (QuizSettings.mk Operation.addition 1 8).timer) := by
  constructor
  · norm_num [handleAnswerSubmit]
  · norm_num

/-! ## Session/Auth controller (`AppContext.tsx`)

Each operation of the `AppProvider` is embedded as a function of the
controller state that additionally takes the outcome of every remote
Supabase call it performs (success payload or error message) as an
explicit parameter.  It returns the updated state, the list of requests it
issued in order (`DbEffect`, with `consoleError` recording `console.error`
calls), and, where the TypeScript function returns a value, that value. -/

/-- A request issued to the Supabase collaborator, or a console error. -/
inductive DbEffect
  | authSignIn (email password : String)
  | authSignUp (email : String) (password : Option String) (name : String)
      (role : Role)
  | authSignOut
  | selectProfiles
  | selectProfileById (id : String)
  | updateProfileChild (child_id : String) (id : String)
  | updateProfile (name : String) (role : Role) (child_id : Option String)
      (id : String)
  | deleteProfile (id : String)
  | selectProgress
  | insertProgress (user_id : String) (operation : Operation) (stage : ℕ)
      (score : ℚ) (total_time : ℚ)
  | deleteProgressByUser (user_id : String)
  | consoleError (msg : String)
deriving DecidableEq, Repr

/-- The `useState` cells of `AppProvider`. -/
structure AppState where
  isLoading : Bool
  users : List User
  progressData : ProgressData
  currentUser : Option User
  view : View
  quizSettings : Option QuizSettings
  quizResults : Option QuizSummary
deriving DecidableEq, Repr

/-- The `{ success, message }` value returned by `login`, `signUp`,
`addUser` and `updateUser`. -/
structure OpResult where
  success : Bool
  message : String
deriving DecidableEq, Repr

/-- The `UserData` payload of `signUp`/`addUser`. -/
structure UserData where
  name : String
  email : String
  password : Option String
  role : Role
  childId : Option String
deriving DecidableEq, Repr

/-- An authenticated Supabase session (`session.user.id`,
`session.user.email`). -/
structure Session where
  userId : String
  email : String
deriving DecidableEq, Repr

/-- A row of the `profiles` table (the email lives in the auth system, not
in the profile). -/
structure ProfileRow where
  id : String
  name : String
  role : Role
  childId : Option String
deriving DecidableEq, Repr

/-- Cache refresh `fetchAllUsers`: on error log and keep the previous cache, on success
replace the `users` cache. -/
def fetchAllUsersStep (result : Except String (List User)) (s : AppState) :
    AppState × List DbEffect :=
  match result with
  | Except.error e =>
    (s, [DbEffect.selectProfiles,
      DbEffect.consoleError ("Error fetching users: " ++ e)])
  | Except.ok data => ({ s with users := data }, [DbEffect.selectProfiles])

/-- Cache refresh `fetchAllProgressData`: on error log and return early (previous cache
kept), on success store the transformed nested structure. -/
def fetchAllProgressDataStep (result : Except String (List ProgressRecord))
    (s : AppState) : AppState × List DbEffect :=
  match result with
  | Except.error e =>
    (s, [DbEffect.selectProgress,
      DbEffect.consoleError ("Error fetching progress data: " ++ e)])
  | Except.ok records =>
    ({ s with progressData := transformProgress records },
      [DbEffect.selectProgress])

/-- Operation `login(email, password)`: delegates to
`supabase.auth.signInWithPassword` and maps the outcome to a
`{ success, message }` result.  It performs no state writes itself. -/
def login (signInError : Option String) (email password : String)
    (s : AppState) : AppState × List DbEffect × OpResult :=
  match signInError with
  | some e => (s, [DbEffect.authSignIn email password], ⟨false, e⟩)
  | none =>
    (s, [DbEffect.authSignIn email password], ⟨true, "Login successful!"⟩)

/-- Operation `logout()`: delegates to `supabase.auth.signOut()`; no state writes. -/
def logout (s : AppState) : AppState × List DbEffect :=
  (s, [DbEffect.authSignOut])

/-- Operation `signUp(data)`: phase 1 creates the auth identity (profile creation is
a database trigger); when phase 1 succeeded with a user object, the role
is `parent` and a `childId` was supplied, phase 2 links the child with a
separate `profiles.update`; a phase-2 failure yields the distinct
composite failure message. -/
def signUp (signUpError : Option String) (newUserId : Option String)
    (linkError : Option String) (data : UserData) (s : AppState) :
    AppState × List DbEffect × OpResult :=
  let eff0 := DbEffect.authSignUp data.email data.password data.name
    data.role
  match signUpError with
  | some e => (s, [eff0], ⟨false, e⟩)
  | none =>
    match newUserId, decide (data.role = Role.parent), data.childId with
    | some uid, true, some cid =>
      match linkError with
      | some e =>
        (s, [eff0, DbEffect.updateProfileChild cid uid],
          ⟨false, "User created, but failed to link child: " ++ e⟩)
      | none =>
        (s, [eff0, DbEffect.updateProfileChild cid uid],
          ⟨true,
            "Sign up successful! Please check your email for a confirmation link."⟩)
    | _, _, _ =>
      (s, [eff0],
        ⟨true,
          "Sign up successful! Please check your email for a confirmation link."⟩)

/-- Operation `addUser(data)` (admin action): reuses `signUp`; on success refreshes
the user list and replaces the message. -/
def addUser (signUpError : Option String) (newUserId : Option String)
    (linkError : Option String) (usersResult : Except String (List User))
    (data : UserData) (s : AppState) : AppState × List DbEffect × OpResult :=
  match signUp signUpError newUserId linkError data s with
  | (s1, effs, result) =>
    if result.success then
      match fetchAllUsersStep usersResult s1 with
      | (s2, effs2) =>
        (s2, effs ++ effs2,
          ⟨true, "User added successfully. Admin will be logged out."⟩)
    else (s1, effs, result)

/-- Operation `updateUser(user)` (admin action): updates only `name`, `role`,
`child_id` on the target profile; refreshes the user cache on success. -/
def updateUser (updateError : Option String)
    (usersResult : Except String (List User)) (u : User) (s : AppState) :
    AppState × List DbEffect × OpResult :=
  let eff0 := DbEffect.updateProfile u.name u.role u.childId u.id
  match updateError with
  | some e => (s, [eff0], ⟨false, e⟩)
  | none =>
    match fetchAllUsersStep usersResult s with
    | (s1, effs) => (s1, eff0 :: effs, ⟨true, "User updated successfully."⟩)

/-- Operation `deleteUser(userId)` (admin action): unconditionally deletes the
profile row, then the progress rows (each failure only logged to the
console), then refreshes both caches.  Returns `void` (unit): no guard and
no result value. -/
def deleteUser (profileError progressError : Option String)
    (usersResult : Except String (List User))
    (progressResult : Except String (List ProgressRecord))
    (userId : String) (s : AppState) : AppState × List DbEffect × Unit :=
  let effs1 := DbEffect.deleteProfile userId ::
    (match profileError with
     | some e => [DbEffect.consoleError ("Error deleting profile: " ++ e)]
     | none => [])
  let effs2 := DbEffect.deleteProgressByUser userId ::
    (match progressError with
     | some e => [DbEffect.consoleError ("Error deleting progress: " ++ e)]
     | none => [])
  match fetchAllUsersStep usersResult s with
  | (s1, effsU) =>
    match fetchAllProgressDataStep progressResult s1 with
    | (s2, effsP) => (s2, effs1 ++ effs2 ++ effsU ++ effsP, ())

/-- Operation `startQuiz(settings)`: store the settings and navigate to the quiz
screen.  (It touches no other state cell.) -/
def startQuiz (settings : QuizSettings) (s : AppState) : AppState :=
  { s with quizSettings := some settings, view := View.quiz }

/-- Operation `finishQuiz(summary)`: a no-op unless the current user is a student;
otherwise store the summary, insert the attempt row, on insert success
refresh the progress cache (on insert failure only log), and finally
navigate to the results screen. -/
def finishQuiz (insertError : Option String)
    (progressResult : Except String (List ProgressRecord))
    (summary : QuizSummary) (s : AppState) : AppState × List DbEffect :=
  match s.currentUser with
  | none => (s, [])
  | some u =>
    if u.role = Role.student then
      let s1 := { s with quizResults := some summary }
      let insEff := DbEffect.insertProgress u.id summary.settings.operation
        summary.settings.stage summary.score summary.totalTime
      match insertError with
      | some e =>
        ({ s1 with view := View.results },
          [insEff,
            DbEffect.consoleError ("Failed to save quiz progress: " ++ e)])
      | none =>
        match fetchAllProgressDataStep progressResult s1 with
        | (s2, effs2) => ({ s2 with view := View.results }, insEff :: effs2)
    else (s, [])

/-- The `onAuthStateChange` subscription handler: on a session, load the
profile; when found, set `currentUser` (profile plus session email), go to
the dashboard and refresh both caches; on sign-out clear `currentUser` and
the caches and return to the login view.  Either way `isLoading` ends
false. -/
def onAuthStateChange (session : Option Session)
    (profileResult : Option ProfileRow)
    (usersResult : Except String (List User))
    (progressResult : Except String (List ProgressRecord))
    (s : AppState) : AppState × List DbEffect :=
  match session with
  | some sess =>
    match profileResult with
    | some profile =>
      let userWithEmail : User :=
        { id := profile.id, name := profile.name, email := sess.email,
          role := profile.role, childId := profile.childId }
      let s1 := { s with currentUser := some userWithEmail,
                         view := View.dashboard }
      match fetchAllUsersStep usersResult s1 with
      | (s2, effsU) =>
        match fetchAllProgressDataStep progressResult s2 with
        | (s3, effsP) =>
          ({ s3 with isLoading := false },
            DbEffect.selectProfileById sess.userId :: (effsU ++ effsP))
    | none =>
      ({ s with isLoading := false }, [DbEffect.selectProfileById sess.userId])
  | none =>
    ({ s with currentUser := none, view := View.login, users := [],
              progressData := [], isLoading := false }, [])

/-- The delete-button visibility test of `AdminDashboard`
(`user.id !== currentUser?.id`): the presentation layer hides the delete
button for the currently-authenticated user. -/
def showDeleteButton (currentUser : Option User) (user : User) : Bool :=
  match currentUser with
  | none => true
  | some cu => decide (user.id ≠ cu.id)

/-- Claim C6. The operation `finishQuiz` is a no-op — no state change at all (so `view` is
unchanged) and no issued request (so no attempt row is inserted) — when
there is no current user or the current user is not a student. -/
theorem finishQuiz_non_student_noop (ie : Option String)
    (pr : Except String (List ProgressRecord)) (summary : QuizSummary)
    (s : AppState)
    (h : s.currentUser = none ∨
      ∃ u, s.currentUser = some u ∧ u.role ≠ Role.student) :
    finishQuiz ie pr summary s = (s, []) := by
  rcases h with h | ⟨u, hcu, hrole⟩
  · simp [finishQuiz, h]
  · simp [finishQuiz, hcu, hrole]

/-- Witness for `finishQuiz_non_student_noop`: a signed-out state. -/
theorem finishQuiz_non_student_noop_witness :
    ((⟨false, [], [], none, View.dashboard, none, none⟩ :
        AppState).currentUser = none ∨
      ∃ u, (⟨false, [], [], none, View.dashboard, none, none⟩ :
        AppState).currentUser = some u ∧ u.role ≠ Role.student) ∧
    finishQuiz none (Except.ok []) ⟨⟨Operation.addition, 1, 8⟩, [], 0, 0⟩
        ⟨false, [], [], none, View.dashboard, none, none⟩ =
      (⟨false, [], [], none, View.dashboard, none, none⟩, []) :=
  ⟨Or.inl rfl,
    finishQuiz_non_student_noop none (Except.ok [])
      ⟨⟨Operation.addition, 1, 8⟩, [], 0, 0⟩
      ⟨false, [], [], none, View.dashboard, none, none⟩ (Or.inl rfl)⟩

/-- Claim C10. When the current user is a student, `finishQuiz` always sets
`view` to `results` and stores the summary in `quizResults`, and always
issues the attempt-row insert — whether or not the insert succeeds; when
the insert fails, only the progress-cache refresh is skipped, so
`progressData` keeps its previous value. -/
theorem finishQuiz_student_always_results (ie : Option String)
    (pr : Except String (List ProgressRecord)) (summary : QuizSummary)
    (s : AppState) (u : User) (hcu : s.currentUser = some u)
    (hrole : u.role = Role.student) :
    (finishQuiz ie pr summary s).1.view = View.results ∧
    (finishQuiz ie pr summary s).1.quizResults = some summary ∧
    DbEffect.insertProgress u.id summary.settings.operation
      summary.settings.stage summary.score summary.totalTime ∈
      (finishQuiz ie pr summary s).2 ∧
    (∀ e, ie = some e →
      (finishQuiz ie pr summary s).1.progressData = s.progressData) := by
  cases ie with
  | some e => simp [finishQuiz, hcu, hrole]
  | none =>
    cases pr with
    | error e2 => simp [finishQuiz, fetchAllProgressDataStep, hcu, hrole]
    | ok recs => simp [finishQuiz, fetchAllProgressDataStep, hcu, hrole]

/-- Witness for `finishQuiz_student_always_results`: a student session
whose attempt insert fails. -/
theorem finishQuiz_student_always_results_witness :
    ((⟨false, [], [], some ⟨"s1", "Stu", "s@x", Role.student, none⟩,
        View.quiz, none, none⟩ : AppState).currentUser =
      some ⟨"s1", "Stu", "s@x", Role.student, none⟩) ∧
    ((⟨"s1", "Stu", "s@x", Role.student, none⟩ : User).role =
      Role.student) ∧
    ((finishQuiz (some "boom") (Except.ok [])
        ⟨⟨Operation.addition, 1, 8⟩, [], 100, 7⟩
        ⟨false, [], [], some ⟨"s1", "Stu", "s@x", Role.student, none⟩,
          View.quiz, none, none⟩).1.view = View.results ∧
      (finishQuiz (some "boom") (Except.ok [])
        ⟨⟨Operation.addition, 1, 8⟩, [], 100, 7⟩
        ⟨false, [], [], some ⟨"s1", "Stu", "s@x", Role.student, none⟩,
          View.quiz, none, none⟩).1.quizResults =
        some ⟨⟨Operation.addition, 1, 8⟩, [], 100, 7⟩ ∧
      DbEffect.insertProgress "s1" Operation.addition 1 100 7 ∈
        (finishQuiz (some "boom") (Except.ok [])
          ⟨⟨Operation.addition, 1, 8⟩, [], 100, 7⟩
          ⟨false, [], [], some ⟨"s1", "Stu", "s@x", Role.student, none⟩,
            View.quiz, none, none⟩).2 ∧
      (∀ e, (some "boom" : Option String) = some e →
        (finishQuiz (some "boom") (Except.ok [])
          ⟨⟨Operation.addition, 1, 8⟩, [], 100, 7⟩
          ⟨false, [], [], some ⟨"s1", "Stu", "s@x", Role.student, none⟩,
            View.quiz, none, none⟩).1.progressData =
          (⟨false, [], [], some ⟨"s1", "Stu", "s@x", Role.student, none⟩,
            View.quiz, none, none⟩ : AppState).progressData)) :=
  ⟨rfl, rfl,
    finishQuiz_student_always_results (some "boom") (Except.ok [])
      ⟨⟨Operation.addition, 1, 8⟩, [], 100, 7⟩
      ⟨false, [], [], some ⟨"s1", "Stu", "s@x", Role.student, none⟩,
        View.quiz, none, none⟩
      ⟨"s1", "Stu", "s@x", Role.student, none⟩ rfl rfl⟩

/-- Claim C7. The cell `currentUser` has a single writer: `login` (and `logout`)
return the state entirely unchanged — they only issue requests to the auth
collaborator — and every other controller operation also leaves
`currentUser` untouched; only the `onAuthStateChange` subscription handler
assigns it (to the loaded profile on a session with a found profile, to
`none` on sign-out). -/
theorem currentUser_single_writer :
    (∀ (err : Option String) (email pw : String) (s : AppState),
      (login err email pw s).1 = s) ∧
    (∀ s : AppState, (logout s).1 = s) ∧
    (∀ (se nu le : Option String) (d : UserData) (s : AppState),
      (signUp se nu le d s).1 = s) ∧
    (∀ (se nu le : Option String) (ur : Except String (List User))
        (d : UserData) (s : AppState),
      ((addUser se nu le ur d s).1).currentUser = s.currentUser) ∧
    (∀ (ue : Option String) (ur : Except String (List User)) (u : User)
        (s : AppState),
      ((updateUser ue ur u s).1).currentUser = s.currentUser) ∧
    (∀ (pe ge : Option String) (ur : Except String (List User))
        (pr : Except String (List ProgressRecord)) (uid : String)
        (s : AppState),
      ((deleteUser pe ge ur pr uid s).1).currentUser = s.currentUser) ∧
    (∀ (settings : QuizSettings) (s : AppState),
      (startQuiz settings s).currentUser = s.currentUser) ∧
    (∀ (ie : Option String) (pr : Except String (List ProgressRecord))
        (summary : QuizSummary) (s : AppState),
      ((finishQuiz ie pr summary s).1).currentUser = s.currentUser) ∧
    (∀ (sess : Session) (profile : ProfileRow)
        (ur : Except String (List User))
        (pr : Except String (List ProgressRecord)) (s : AppState),
      ((onAuthStateChange (some sess) (some profile) ur pr s).1).currentUser
        = some ⟨profile.id, profile.name, sess.email, profile.role,
            profile.childId⟩) ∧
    (∀ (pfr : Option ProfileRow) (ur : Except String (List User))
        (pr : Except String (List ProgressRecord)) (s : AppState),
      ((onAuthStateChange none pfr ur pr s).1).currentUser = none) := by
  refine ⟨?_, ?_, ?_, ?_, ?_, ?_, ?_, ?_, ?_, ?_⟩
  · intro err email pw s
    cases err <;> rfl
  · intro s
    rfl
  · intro se nu le d s
    by_cases hp : d.role = Role.parent <;> cases se <;> cases nu <;>
      cases hc : d.childId <;> cases le <;> simp [signUp, hp, hc]
  · intro se nu le ur d s
    by_cases hp : d.role = Role.parent <;> cases se <;> cases nu <;>
      cases hc : d.childId <;> cases le <;> cases ur <;>
        simp [addUser, signUp, fetchAllUsersStep, hp, hc]
  · intro ue ur u s
    cases ue <;> cases ur <;> simp [updateUser, fetchAllUsersStep]
  · intro pe ge ur pr uid s
    cases ur <;> cases pr <;>
      simp [deleteUser, fetchAllUsersStep, fetchAllProgressDataStep]
  · intro settings s
    rfl
  · intro ie pr summary s
    cases hcu : s.currentUser with
    | none => simp [finishQuiz, hcu]
    | some u =>
      by_cases hrole : u.role = Role.student
      · cases ie with
        | some e => simp [finishQuiz, hcu, hrole]
        | none =>
          cases pr <;> simp [finishQuiz, fetchAllProgressDataStep, hcu, hrole]
      · simp [finishQuiz, hcu, hrole]
  · intro sess profile ur pr s
    cases ur <;> cases pr <;>
      simp [onAuthStateChange, fetchAllUsersStep, fetchAllProgressDataStep]
  · intro pfr ur pr s
    simp [onAuthStateChange]

/-- Claim C5, amended. The self-delete guard lives only in the presentation
layer: `AdminDashboard` does not render a delete button for the
currently-authenticated user, while the controller operation `deleteUser`
itself issues the profile- and progress-delete requests for any target id
unconditionally — it never inspects `currentUser`. -/
theorem deleteUser_guard_presentation_only :
    (∀ (pe ge : Option String) (ur : Except String (List User))
        (pr : Except String (List ProgressRecord)) (uid : String)
        (s : AppState),
      DbEffect.deleteProfile uid ∈ (deleteUser pe ge ur pr uid s).2.1 ∧
      DbEffect.deleteProgressByUser uid ∈
        (deleteUser pe ge ur pr uid s).2.1) ∧
    (∀ u : User, showDeleteButton (some u) u = false) := by
  constructor
  · intro pe ge ur pr uid s
    constructor <;> cases pe <;> cases ge <;> cases ur <;> cases pr <;>
      simp [deleteUser, fetchAllUsersStep, fetchAllProgressDataStep]
  · intro u
    simp [showDeleteButton]

/-- Claim C5, counterexample. With the authenticated admin `"u1"` as current
user, `deleteUser "u1"` is *not* rejected by the controller: the
profile-delete request for `"u1"` is issued. -/
theorem deleteUser_self_not_rejected_counterexample :
    DbEffect.deleteProfile "u1" ∈
      (deleteUser none none (Except.ok []) (Except.ok []) "u1"
        ⟨false, [⟨"u1", "Admin", "a@x", Role.admin, none⟩], [],
          some ⟨"u1", "Admin", "a@x", Role.admin, none⟩, View.dashboard,
          none, none⟩).2.1 := by
  simp [deleteUser, fetchAllUsersStep, fetchAllProgressDataStep]

/-- Claim C8, amended. Of the two multi-step operations, only `signUp`
reports a later-phase failure to its caller as a distinct composite
result: when account creation succeeded and the child-link update failed,
it returns failure with the composite message, after exactly one link
attempt (no retry) and no state change.  `deleteUser` instead returns
`void` regardless: a progress-delete failure after a successful profile
delete is only logged to the console and is not reported to the caller. -/
theorem linkFailureReporting :
    (∀ (uid cid e : String) (d : UserData) (s : AppState),
      d.role = Role.parent → d.childId = some cid →
      (signUp none (some uid) (some e) d s).2.2 =
        ⟨false, "User created, but failed to link child: " ++ e⟩ ∧
      (signUp none (some uid) (some e) d s).2.1 =
        [DbEffect.authSignUp d.email d.password d.name d.role,
          DbEffect.updateProfileChild cid uid] ∧
      (signUp none (some uid) (some e) d s).1 = s) ∧
    (∀ (e uid : String) (ur : Except String (List User))
        (pr : Except String (List ProgressRecord)) (s : AppState),
      (deleteUser none (some e) ur pr uid s).2.2 = () ∧
      DbEffect.consoleError ("Error deleting progress: " ++ e) ∈
        (deleteUser none (some e) ur pr uid s).2.1) := by
  constructor
  · intro uid cid e d s hrole hchild
    refine ⟨?_, ?_, ?_⟩ <;> simp [signUp, hrole, hchild]
  · intro e uid ur pr s
    constructor
    · apply Subsingleton.elim
    · cases ur <;> cases pr <;>
        simp [deleteUser, fetchAllUsersStep, fetchAllProgressDataStep]

/-- Witness for `linkFailureReporting`: a concrete parent signup
whose child-link phase fails with error `"boom"`. -/
theorem linkFailureReporting_witness :
    ((⟨"P", "p@x", some "pw", Role.parent, some "c1"⟩ : UserData).role =
      Role.parent ∧
     (⟨"P", "p@x", some "pw", Role.parent, some "c1"⟩ : UserData).childId =
      some "c1") ∧
    ((signUp none (some "u9") (some "boom")
        ⟨"P", "p@x", some "pw", Role.parent, some "c1"⟩
        ⟨false, [], [], none, View.login, none, none⟩).2.2 =
      ⟨false, "User created, but failed to link child: " ++ "boom"⟩ ∧
     (signUp none (some "u9") (some "boom")
        ⟨"P", "p@x", some "pw", Role.parent, some "c1"⟩
        ⟨false, [], [], none, View.login, none, none⟩).2.1 =
      [DbEffect.authSignUp "p@x" (some "pw") "P" Role.parent,
        DbEffect.updateProfileChild "c1" "u9"] ∧
     (signUp none (some "u9") (some "boom")
        ⟨"P", "p@x", some "pw", Role.parent, some "c1"⟩
        ⟨false, [], [], none, View.login, none, none⟩).1 =
      ⟨false, [], [], none, View.login, none, none⟩) :=
  ⟨⟨rfl, rfl⟩,
    linkFailureReporting.1 "u9" "c1" "boom"
      ⟨"P", "p@x", some "pw", Role.parent, some "c1"⟩
      ⟨false, [], [], none, View.login, none, none⟩ rfl rfl⟩

/-- Claim C8, counterexample. A `deleteUser` run in which the profile delete
succeeded and the progress delete failed returns exactly the same value to
its caller as a fully successful run (`void` both times) — the partial
failure is only visible as a console log, not as a distinct composite
result. -/
theorem deleteUser_void_return_counterexample :
    (deleteUser none (some "boom") (Except.ok []) (Except.ok []) "u1"
        ⟨false, [], [], none, View.dashboard, none, none⟩).2.2 =
      (deleteUser none none (Except.ok []) (Except.ok []) "u1"
        ⟨false, [], [], none, View.dashboard, none, none⟩).2.2 ∧
    DbEffect.consoleError ("Error deleting progress: boom") ∈
      (deleteUser none (some "boom") (Except.ok []) (Except.ok []) "u1"
        ⟨false, [], [], none, View.dashboard, none, none⟩).2.1 := by
  constructor
  · rfl
  · simp [deleteUser, fetchAllUsersStep, fetchAllProgressDataStep]

/-- Claim C9, amended. The operation `startQuiz` installs the new settings and moves
`view` to the quiz screen, and leaves every other state cell — including
any `quizResults` summary left over from an earlier quiz — unchanged: the
stale summary is *not* reset to `none`. -/
theorem startQuiz_frame (settings : QuizSettings) (s : AppState) :
    (startQuiz settings s).quizSettings = some settings ∧
    (startQuiz settings s).view = View.quiz ∧
    (startQuiz settings s).quizResults = s.quizResults ∧
    (startQuiz settings s).currentUser = s.currentUser ∧
    (startQuiz settings s).users = s.users ∧
    (startQuiz settings s).progressData = s.progressData ∧
    (startQuiz settings s).isLoading = s.isLoading :=
  ⟨rfl, rfl, rfl, rfl, rfl, rfl, rfl⟩

/-- Claim C9, counterexample. Starting a new quiz in a state still holding the
summary of the previous session still stored leaves that summary present: after `startQuiz`
the old `QuizSummary` is still there, not reset to absent. -/
theorem startQuiz_stale_summary_counterexample :
    (startQuiz ⟨Operation.addition, 1, 8⟩
        ⟨false, [], [], none, View.dashboard, none,
          some ⟨⟨Operation.addition, 1, 8⟩, [], 100, 0⟩⟩).quizResults =
      some ⟨⟨Operation.addition, 1, 8⟩, [], 100, 0⟩ ∧
    (startQuiz ⟨Operation.addition, 1, 8⟩
        ⟨false, [], [], none, View.dashboard, none,
          some ⟨⟨Operation.addition, 1, 8⟩, [], 100, 0⟩⟩).quizResults ≠
      none :=
  ⟨rfl, by simp [startQuiz]⟩
